import Mathlib

/-!
Verification of the time-series feature-builder of this repository.

The embedded code is the notebook's `prepareData` pipeline together with its
helpers `timeseries_train_test_split` and `code_mean`, and the second
notebook's `moving_average`.  A series is an ordered list of
(timestamp, value) pairs; timestamps are whole hours counted from an epoch
that falls on a Monday at 00:00, so pandas' `index.hour` and `index.weekday`
become integer arithmetic on the timestamp.  Missing values (`NaN` produced
by `shift`, `None` produced by dictionary `.get`) are `Option.none`;
`dropna` filters rows whose present columns contain a `none`.
-/

namespace TSF

/-- Python `int()` applied to a rational: truncation toward zero. -/
def pyInt (q : ℚ) : ℤ := if q < 0 then -⌊-q⌋ else ⌊q⌋

/-- Python positional slice `l[:i]`, allowing a negative bound as Python does. -/
def pyTake {α : Type} (l : List α) (i : ℤ) : List α :=
  if 0 ≤ i then l.take i.toNat else l.take ((l.length : ℤ) + i).toNat

/-- Python positional slice `l[i:]`, allowing a negative bound as Python does. -/
def pyDrop {α : Type} (l : List α) (i : ℤ) : List α :=
  if 0 ≤ i then l.drop i.toNat else l.drop ((l.length : ℤ) + i).toNat

/-- Python `range(a, b)` over integers. -/
def pyRange (a b : ℤ) : List ℤ := (List.range (b - a).toNat).map (fun n : ℕ => a + (n : ℤ))

/-- A raw input series: chronologically ordered (timestamp, value) pairs. -/
abbrev Series := List (ℤ × ℚ)

/-- Timestamp of the series row at position `i` (the default is never used:
every access made by the pipeline is in range). -/
def tAt (s : Series) (i : ℕ) : ℤ := ((s.get? i).map Prod.fst).getD 0

/-- Target value of the series row at position `i`. -/
def yAt (s : Series) (i : ℕ) : ℚ := ((s.get? i).map Prod.snd).getD 0

/-- pandas `data.y.shift(k)` read at position `i`: the value `k` positions
earlier, `NaN` (here `none`) when that position falls outside the frame. -/
def shiftAt (s : Series) (i : ℕ) (k : ℤ) : Option ℚ :=
  if 0 ≤ (i : ℤ) - k ∧ (i : ℤ) - k < (s.length : ℤ) then
    some (yAt s ((i : ℤ) - k).toNat)
  else none

/-- Hour-of-day of a timestamp (pandas `index.hour`); `%` on `ℤ` is Euclidean,
which agrees with the calendar also at negative timestamps. -/
def hourOf (t : ℤ) : ℤ := t % 24

/-- Weekday of a timestamp, Monday = 0 (pandas `index.weekday`). -/
def weekdayOf (t : ℤ) : ℤ := (t / 24) % 7

/-- One row of the working frame.  `lags` lists the lag columns in ascending
lag order; `weekday_average`/`hour_average` are `none` while the encoded
column is absent, and `some v` once attached, where `v = none` marks `NaN`. -/
structure FeatureRow where
  t : ℤ
  y : ℚ
  lags : List (Option ℚ)
  hour : ℤ
  weekday : ℤ
  is_weekend : ℤ
  weekday_average : Option (Option ℚ)
  hour_average : Option (Option ℚ)
deriving DecidableEq

/-- Row `i` of the frame after the lag loop and the calendar-feature
assignments of `prepareData` (the encoded columns are not yet attached). -/
def rowAt (s : Series) (ls le : ℤ) (i : ℕ) : FeatureRow :=
  { t := tAt s i
    y := yAt s i
    lags := (pyRange ls le).map (shiftAt s i)
    hour := hourOf (tAt s i)
    weekday := weekdayOf (tAt s i)
    is_weekend := if weekdayOf (tAt s i) = 5 ∨ weekdayOf (tAt s i) = 6 then 1 else 0
    weekday_average := none
    hour_average := none }

/-- The working frame `data` right before the `target_encoding` branch. -/
def baseFrame (s : Series) (ls le : ℤ) : List FeatureRow :=
  (List.range s.length).map (rowAt s ls le)

/-- A row all of whose lag columns are defined.  Before the encoded columns
are attached, `dropna` keeps exactly these rows. -/
def lagComplete (r : FeatureRow) : Bool := r.lags.all Option.isSome

/-- The notebook's `code_mean(data, cat_feature, "y")`, read back through the
dictionary's `.get` at category `c`: the mean of `y` over the rows of `data`
in that category, or `None` when the category does not occur in `data`. -/
def code_mean (data : List FeatureRow) (cat : FeatureRow → ℤ) (c : ℤ) : Option ℚ :=
  let g := data.filter (fun r => decide (cat r = c))
  if g.length = 0 then none else some ((g.map FeatureRow.y).sum / (g.length : ℚ))

/-- The boundary computed inside the `target_encoding` branch:
`int(len(data.dropna()) * (1 - test_size))`. -/
def encTestIndex (s : Series) (ls le : ℤ) (ts : ℚ) : ℤ :=
  pyInt ((((baseFrame s ls le).filter lagComplete).length : ℚ) * (1 - ts))

/-- Row `i` after the two encoded columns are attached.  The group means are
taken over `data[:test_index]`, the leading rows of the full frame. -/
def encRowAt (s : Series) (ls le : ℤ) (ts : ℚ) (i : ℕ) : FeatureRow :=
  let prefx := pyTake (baseFrame s ls le) (encTestIndex s ls le ts)
  { rowAt s ls le i with
      weekday_average := some (code_mean prefx FeatureRow.weekday (rowAt s ls le i).weekday)
      hour_average := some (code_mean prefx FeatureRow.hour (rowAt s ls le i).hour) }

/-- The frame after the `target_encoding` branch ran. -/
def encFrame (s : Series) (ls le : ℤ) (ts : ℚ) : List FeatureRow :=
  (List.range s.length).map (encRowAt s ls le ts)

/-- The frame reaching the final `dropna`, for either flag value. -/
def fullFrame (s : Series) (ls le : ℤ) (ts : ℚ) (enc : Bool) : List FeatureRow :=
  if enc then encFrame s ls le ts else baseFrame s ls le

/-- dropna on an optional column: a column that is present must hold a value. -/
def optColComplete : Option (Option ℚ) → Bool
  | none => true
  | some v => v.isSome

/-- dropna condition over a full row: every lag defined and, when the encoded
columns are present, both defined. -/
def isComplete (r : FeatureRow) : Bool :=
  lagComplete r && optColComplete r.weekday_average && optColComplete r.hour_average

/-- `data.dropna()` at the train-test-split step. -/
def cleanedRows (s : Series) (ls le : ℤ) (ts : ℚ) (enc : Bool) : List FeatureRow :=
  (fullFrame s ls le ts enc).filter isComplete

/-- The tuple `(X_train, X_test, y_train, y_test)`.  Feature rows are carried
whole; the target vectors are returned separately as the last two components. -/
abbrev Output := List FeatureRow × List FeatureRow × List ℚ × List ℚ

def Xtrain (o : Output) : List FeatureRow := o.1

def Xtest (o : Output) : List FeatureRow := o.2.1

def ytrain (o : Output) : List ℚ := o.2.2.1

def ytest (o : Output) : List ℚ := o.2.2.2

/-- The notebook's `timeseries_train_test_split`: positional prefix/suffix
split at `int(len(X) * (1 - test_size))`. -/
def timeseries_train_test_split (X : List FeatureRow) (y : List ℚ) (test_size : ℚ) : Output :=
  let test_index := pyInt ((X.length : ℚ) * (1 - test_size))
  (pyTake X test_index, pyDrop X test_index, pyTake y test_index, pyDrop y test_index)

/-- The notebook's `prepareData`. -/
def prepareData (s : Series) (ls le : ℤ) (ts : ℚ) (enc : Bool) : Output :=
  timeseries_train_test_split
    (cleanedRows s ls le ts enc)
    ((cleanedRows s ls le ts enc).map FeatureRow.y)
    ts

/-- The error taxonomy named by the specification. -/
inductive BuildError
  | InvalidWindow
  | InvalidFraction
  | InsufficientData
deriving DecidableEq

/-- `prepareData` as callers observe it, with room for a failure outcome.
The source performs no input validation and raises on none of these paths,
so every call returns a dataset. -/
def prepareDataE (s : Series) (ls le : ℤ) (ts : ℚ) (enc : Bool) : Except BuildError Output :=
  Except.ok (prepareData s ls le ts enc)

/-- A call as seen from the caller's frame: the first component is the
caller's series after the call.  The source's first statement takes a copy
(`pd.DataFrame(series.copy())`) and every later mutation — column
assignment, `inplace` drop — targets that copy, so the caller's binding is
handed back unchanged while the returned tuple is computed from the copy. -/
def prepareDataCall (s : Series) (ls le : ℤ) (ts : ℚ) (enc : Bool) : Series × Output :=
  (s, prepareData (List.map id s) ls le ts enc)

/-- Replace the target value stored at position `p`, keeping the timestamp. -/
def setY : Series → ℕ → ℚ → Series
  | [], _, _ => []
  | e :: tl, 0, v => (e.1, v) :: tl
  | e :: tl, Nat.succ p, v => e :: setY tl p v

/-- The value the raw series holds at timestamp `t`, if any. -/
def seriesLookup (s : Series) (t : ℤ) : Option ℚ :=
  (s.find? (fun e => decide (e.1 = t))).map Prod.snd

/-- Python slice `l[-n:]` for an integer `n` (numpy/pandas positional tail). -/
def sliceLast (l : List ℚ) (n : ℤ) : List ℚ :=
  if 1 ≤ n then l.drop (l.length - n.toNat) else l.drop ((-n).toNat)

/-- The second notebook's `moving_average`: `np.average(series[-n:])`. -/
def moving_average (s : List ℚ) (n : ℤ) : ℚ :=
  (sliceLast s n).sum / ((sliceLast s n).length : ℚ)

/-! Helper lemmas about the embedded primitives. -/

theorem intToNat0 : (0 : ℤ).toNat = 0 := rfl

theorem intToNat1 : (1 : ℤ).toNat = 1 := rfl

theorem intToNat2 : (2 : ℤ).toNat = 2 := rfl

theorem intToNat3 : (3 : ℤ).toNat = 3 := rfl

theorem intToNat4 : (4 : ℤ).toNat = 4 := rfl

theorem intToNat5 : (5 : ℤ).toNat = 5 := rfl

theorem intToNat6 : (6 : ℤ).toNat = 6 := rfl

theorem intToNat7 : (7 : ℤ).toNat = 7 := rfl

theorem intToNat8 : (8 : ℤ).toNat = 8 := rfl

theorem intToNat78 : (78 : ℤ).toNat = 78 := rfl

theorem hourOf_small {t : ℤ} (h0 : 0 ≤ t) (h24 : t < 24) : hourOf t = t :=
  Int.emod_eq_of_lt h0 h24

theorem weekdayOf_small {t : ℤ} (h0 : 0 ≤ t) (h24 : t < 24) : weekdayOf t = 0 := by
  unfold weekdayOf
  rw [Int.ediv_eq_zero_of_lt h0 h24]
  rfl

theorem pyInt_of_nonneg {q : ℚ} (h : 0 ≤ q) : pyInt q = ⌊q⌋ := by
  rw [pyInt, if_neg (not_lt.2 h)]

theorem pyInt_nonneg {q : ℚ} (h : 0 ≤ q) : 0 ≤ pyInt q := by
  rw [pyInt_of_nonneg h]
  exact Int.floor_nonneg.2 h

theorem split_index_nonneg (C : ℕ) {ts : ℚ} (h1 : ts ≤ 1) :
    0 ≤ pyInt ((C : ℚ) * (1 - ts)) :=
  pyInt_nonneg (mul_nonneg (by positivity) (by linarith))

theorem split_index_le (C : ℕ) {ts : ℚ} (h0 : 0 ≤ ts) (h1 : ts ≤ 1) :
    (pyInt ((C : ℚ) * (1 - ts))).toNat ≤ C := by
  have hq : (0:ℚ) ≤ (C : ℚ) * (1 - ts) := mul_nonneg (by positivity) (by linarith)
  rw [pyInt_of_nonneg hq]
  have hle : ((C : ℚ) * (1 - ts)) ≤ (C : ℚ) := by
    nlinarith [Nat.cast_nonneg (α := ℚ) C]
  have := Int.floor_le_floor hle
  rw [Int.floor_natCast] at this
  omega

theorem mem_pyTake {α : Type} {l : List α} {i : ℤ} {x : α} (h : x ∈ pyTake l i) : x ∈ l := by
  unfold pyTake at h
  split at h
  · exact (List.take_sublist _ _).mem h
  · exact (List.take_sublist _ _).mem h

theorem mem_pyDrop {α : Type} {l : List α} {i : ℤ} {x : α} (h : x ∈ pyDrop l i) : x ∈ l := by
  unfold pyDrop at h
  split at h
  · exact (List.drop_sublist _ _).mem h
  · exact (List.drop_sublist _ _).mem h

theorem pyTake_of_nonneg {α : Type} (l : List α) {i : ℤ} (h : 0 ≤ i) :
    pyTake l i = l.take i.toNat := by
  rw [pyTake, if_pos h]

theorem pyDrop_of_nonneg {α : Type} (l : List α) {i : ℤ} (h : 0 ≤ i) :
    pyDrop l i = l.drop i.toNat := by
  rw [pyDrop, if_pos h]

theorem pyRange_of_le {a b : ℤ} (h : b ≤ a) : pyRange a b = [] := by
  unfold pyRange
  rw [Int.toNat_of_nonpos (by omega)]
  rfl

theorem tAt_eq_get {s : Series} {i : ℕ} (h : i < s.length) :
    tAt s i = (s.get ⟨i, h⟩).1 := by
  simp [tAt, List.get?_eq_get h, List.getElem?_eq_getElem h]

theorem yAt_eq_get {s : Series} {i : ℕ} (h : i < s.length) :
    yAt s i = (s.get ⟨i, h⟩).2 := by
  simp [yAt, List.get?_eq_get h, List.getElem?_eq_getElem h]

theorem tAt_inj {s : Series} (hs : List.Pairwise (fun a b : ℤ × ℚ => a.1 < b.1) s)
    {i j : ℕ} (hi : i < s.length) (hj : j < s.length) (he : tAt s i = tAt s j) : i = j := by
  rcases Nat.lt_trichotomy i j with h | h | h
  · have := List.pairwise_iff_get.1 hs ⟨i, hi⟩ ⟨j, hj⟩ h
    rw [tAt_eq_get hi, tAt_eq_get hj] at he
    omega
  · exact h
  · have := List.pairwise_iff_get.1 hs ⟨j, hj⟩ ⟨i, hi⟩ h
    rw [tAt_eq_get hi, tAt_eq_get hj] at he
    omega

theorem allMap {α β : Type} (f : α → β) (l : List α) (p : β → Bool) :
    (l.map f).all p = l.all (p ∘ f) := by
  induction l with
  | nil => rfl
  | cons a t ih => simp [List.all_cons, ih]

theorem allCongr {α : Type} {l : List α} {f g : α → Bool} (h : ∀ x ∈ l, f x = g x) :
    l.all f = l.all g := by
  induction l with
  | nil => rfl
  | cons a t ih =>
      simp only [List.all_cons, h a (by simp)]
      rw [ih (fun x hx => h x (by simp [hx]))]

theorem rowAt_t (s : Series) (ls le : ℤ) (i : ℕ) : (rowAt s ls le i).t = tAt s i := rfl

theorem encRowAt_t (s : Series) (ls le : ℤ) (ts : ℚ) (i : ℕ) :
    (encRowAt s ls le ts i).t = tAt s i := rfl

theorem range_map_tAt (s : Series) : (List.range s.length).map (tAt s) = s.map Prod.fst := by
  apply List.ext_get
  · simp
  · intro i h1 h2
    simp only [List.get_map, List.get_range]
    rw [tAt_eq_get (by simpa using h2)]

theorem fullFrame_map_t (s : Series) (ls le : ℤ) (ts : ℚ) (enc : Bool) :
    (fullFrame s ls le ts enc).map FeatureRow.t = s.map Prod.fst := by
  cases enc with
  | false =>
      rw [fullFrame, if_neg (by simp), baseFrame, List.map_map]
      exact range_map_tAt s
  | true =>
      rw [fullFrame, if_pos rfl, encFrame, List.map_map]
      exact range_map_tAt s

theorem code_mean_congr_proj {l1 l2 : List FeatureRow}
    (h : l1.map (fun r => (r.weekday, r.hour, r.y)) = l2.map (fun r => (r.weekday, r.hour, r.y))) :
    (∀ c, code_mean l1 FeatureRow.weekday c = code_mean l2 FeatureRow.weekday c) ∧
    (∀ c, code_mean l1 FeatureRow.hour c = code_mean l2 FeatureRow.hour c) := by
  have key : ∀ (cat : FeatureRow → ℤ) (sel : ℤ × ℤ × ℚ → ℤ),
      (∀ r : FeatureRow, sel (r.weekday, r.hour, r.y) = cat r) →
      ∀ c, code_mean l1 cat c = code_mean l2 cat c := by
    intro cat sel hsel c
    have h1 : ∀ l : List FeatureRow,
        (l.filter fun r => decide (cat r = c)).map (fun r => (r.weekday, r.hour, r.y)) =
          (l.map fun r => (r.weekday, r.hour, r.y)).filter (fun x => decide (sel x = c)) := by
      intro l
      rw [List.filter_map]
      congr 1
      apply List.filter_congr
      intro r _
      simp [hsel r]
    have hfilter : (l1.filter fun r => decide (cat r = c)).map
          (fun r => (r.weekday, r.hour, r.y)) =
        (l2.filter fun r => decide (cat r = c)).map (fun r => (r.weekday, r.hour, r.y)) := by
      rw [h1 l1, h1 l2, h]
    have hlen : (l1.filter fun r => decide (cat r = c)).length =
        (l2.filter fun r => decide (cat r = c)).length := by
      have := congrArg List.length hfilter
      simpa using this
    have hy : (l1.filter fun r => decide (cat r = c)).map FeatureRow.y =
        (l2.filter fun r => decide (cat r = c)).map FeatureRow.y := by
      have := congrArg (List.map (fun x : ℤ × ℤ × ℚ => x.2.2)) hfilter
      simpa [List.map_map, Function.comp] using this
    rw [code_mean, code_mean, hlen, hy]
  exact ⟨key FeatureRow.weekday (fun x => x.1) (fun _ => rfl),
    key FeatureRow.hour (fun x => x.2.1) (fun _ => rfl)⟩

theorem get?_setY (s : Series) (p : ℕ) (v : ℚ) (i : ℕ) :
    (setY s p v).get? i =
      if i = p then (s.get? i).map (fun e => (e.1, v)) else s.get? i := by
  induction s generalizing p i with
  | nil => simp [setY]
  | cons e tl ih =>
      cases p with
      | zero =>
          cases i with
          | zero => simp [setY]
          | succ j => simp [setY]
      | succ q =>
          cases i with
          | zero => simp [setY]
          | succ j =>
              simp only [setY, List.get?_cons_succ, ih q j]
              by_cases hj : j = q
              · simp [hj]
              · simp [hj, fun h => hj (Nat.succ_injective h)]

theorem length_setY (s : Series) (p : ℕ) (v : ℚ) : (setY s p v).length = s.length := by
  induction s generalizing p with
  | nil => rfl
  | cons e tl ih =>
      cases p with
      | zero => simp [setY]
      | succ q => simp [setY, ih q]

theorem tAt_setY (s : Series) (p : ℕ) (v : ℚ) (i : ℕ) : tAt (setY s p v) i = tAt s i := by
  rw [tAt, get?_setY]
  by_cases h : i = p
  · rw [if_pos h, tAt]
    cases s.get? i <;> rfl
  · rw [if_neg h, tAt]

theorem yAt_setY_ne (s : Series) (p : ℕ) (v : ℚ) {i : ℕ} (h : i ≠ p) :
    yAt (setY s p v) i = yAt s i := by
  rw [yAt, get?_setY, if_neg h, yAt]

/-! Concrete runs used by the counterexamples and witnesses: a five-point
hourly series with values `v[i] = i`, and its mutation at position 0. -/

def s5 : Series := [(0, 0), (1, 1), (2, 2), (3, 3), (4, 4)]

def s5m : Series := setY s5 0 10

theorem s5m_eq : s5m = [(0, 10), (1, 1), (2, 2), (3, 3), (4, 4)] := rfl

theorem s5_base : baseFrame s5 1 2 =
    [{ t := 0, y := 0, lags := [none], hour := 0, weekday := 0, is_weekend := 0,
       weekday_average := none, hour_average := none },
     { t := 1, y := 1, lags := [some 0], hour := 1, weekday := 0, is_weekend := 0,
       weekday_average := none, hour_average := none },
     { t := 2, y := 2, lags := [some 1], hour := 2, weekday := 0, is_weekend := 0,
       weekday_average := none, hour_average := none },
     { t := 3, y := 3, lags := [some 2], hour := 3, weekday := 0, is_weekend := 0,
       weekday_average := none, hour_average := none },
     { t := 4, y := 4, lags := [some 3], hour := 4, weekday := 0, is_weekend := 0,
       weekday_average := none, hour_average := none }] := by
  simp [baseFrame, rowAt, s5, pyRange, shiftAt, yAt, tAt, List.range_succ,
    hourOf_small, weekdayOf_small]

theorem s5_ti : encTestIndex s5 1 2 (1/2) = 2 := by
  rw [encTestIndex, s5_base]
  norm_num [lagComplete, pyInt]

theorem s5_enc : encFrame s5 1 2 (1/2) =
    [{ t := 0, y := 0, lags := [none], hour := 0, weekday := 0, is_weekend := 0,
       weekday_average := some (some (1/2)), hour_average := some (some 0) },
     { t := 1, y := 1, lags := [some 0], hour := 1, weekday := 0, is_weekend := 0,
       weekday_average := some (some (1/2)), hour_average := some (some 1) },
     { t := 2, y := 2, lags := [some 1], hour := 2, weekday := 0, is_weekend := 0,
       weekday_average := some (some (1/2)), hour_average := some none },
     { t := 3, y := 3, lags := [some 2], hour := 3, weekday := 0, is_weekend := 0,
       weekday_average := some (some (1/2)), hour_average := some none },
     { t := 4, y := 4, lags := [some 3], hour := 4, weekday := 0, is_weekend := 0,
       weekday_average := some (some (1/2)), hour_average := some none }] := by
  have h5 : s5.length = 5 := rfl
  rw [encFrame, h5]
  simp only [List.range_succ, List.range_zero, List.map_cons, List.map_nil, List.map_append,
    List.nil_append, List.cons_append, encRowAt]
  rw [s5_ti, s5_base]
  norm_num [code_mean, pyTake, rowAt, pyRange, shiftAt, yAt, tAt, s5,
    hourOf_small, weekdayOf_small, intToNat0, intToNat1, intToNat2, intToNat3, intToNat4,
    List.range_succ, List.range_zero]

theorem s5_out : prepareData s5 1 2 (1/2) true =
    ([],
     [{ t := 1, y := 1, lags := [some 0], hour := 1, weekday := 0, is_weekend := 0,
        weekday_average := some (some (1/2)), hour_average := some (some 1) }],
     [], [1]) := by
  rw [prepareData, cleanedRows, fullFrame, if_pos rfl, s5_enc]
  norm_num [isComplete, lagComplete, optColComplete, timeseries_train_test_split,
    pyInt, pyTake, pyDrop, intToNat0]

theorem s5m_base : baseFrame s5m 1 2 =
    [{ t := 0, y := 10, lags := [none], hour := 0, weekday := 0, is_weekend := 0,
       weekday_average := none, hour_average := none },
     { t := 1, y := 1, lags := [some 10], hour := 1, weekday := 0, is_weekend := 0,
       weekday_average := none, hour_average := none },
     { t := 2, y := 2, lags := [some 1], hour := 2, weekday := 0, is_weekend := 0,
       weekday_average := none, hour_average := none },
     { t := 3, y := 3, lags := [some 2], hour := 3, weekday := 0, is_weekend := 0,
       weekday_average := none, hour_average := none },
     { t := 4, y := 4, lags := [some 3], hour := 4, weekday := 0, is_weekend := 0,
       weekday_average := none, hour_average := none }] := by
  simp [baseFrame, rowAt, s5m_eq, pyRange, shiftAt, yAt, tAt, List.range_succ,
    hourOf_small, weekdayOf_small]

theorem s5m_ti : encTestIndex s5m 1 2 (1/2) = 2 := by
  rw [encTestIndex, s5m_base]
  norm_num [lagComplete, pyInt]

theorem s5m_enc : encFrame s5m 1 2 (1/2) =
    [{ t := 0, y := 10, lags := [none], hour := 0, weekday := 0, is_weekend := 0,
       weekday_average := some (some (11/2)), hour_average := some (some 10) },
     { t := 1, y := 1, lags := [some 10], hour := 1, weekday := 0, is_weekend := 0,
       weekday_average := some (some (11/2)), hour_average := some (some 1) },
     { t := 2, y := 2, lags := [some 1], hour := 2, weekday := 0, is_weekend := 0,
       weekday_average := some (some (11/2)), hour_average := some none },
     { t := 3, y := 3, lags := [some 2], hour := 3, weekday := 0, is_weekend := 0,
       weekday_average := some (some (11/2)), hour_average := some none },
     { t := 4, y := 4, lags := [some 3], hour := 4, weekday := 0, is_weekend := 0,
       weekday_average := some (some (11/2)), hour_average := some none }] := by
  have h5 : s5m.length = 5 := rfl
  rw [encFrame, h5]
  simp only [List.range_succ, List.range_zero, List.map_cons, List.map_nil, List.map_append,
    List.nil_append, List.cons_append, encRowAt]
  rw [s5m_ti, s5m_base]
  norm_num [code_mean, pyTake, rowAt, pyRange, shiftAt, yAt, tAt, s5m_eq,
    hourOf_small, weekdayOf_small, intToNat0, intToNat1, intToNat2, intToNat3, intToNat4,
    List.range_succ, List.range_zero]

theorem s5m_out : prepareData s5m 1 2 (1/2) true =
    ([],
     [{ t := 1, y := 1, lags := [some 10], hour := 1, weekday := 0, is_weekend := 0,
        weekday_average := some (some (11/2)), hour_average := some (some 1) }],
     [], [1]) := by
  rw [prepareData, cleanedRows, fullFrame, if_pos rfl, s5m_enc]
  norm_num [isComplete, lagComplete, optColComplete, timeseries_train_test_split,
    pyInt, pyTake, pyDrop, intToNat0]

/-! A nine-point hourly series with values `v[i] = i`, and its mutation at
position 3 — a position that ends up in the returned test partition. -/

def s9 : Series := [(0, 0), (1, 1), (2, 2), (3, 3), (4, 4), (5, 5), (6, 6), (7, 7), (8, 8)]

def s9m : Series := setY s9 3 100

theorem s9m_eq : s9m =
    [(0, 0), (1, 1), (2, 2), (3, 100), (4, 4), (5, 5), (6, 6), (7, 7), (8, 8)] := rfl

theorem s9_base : baseFrame s9 1 2 =
    [{ t := 0, y := 0, lags := [none], hour := 0, weekday := 0, is_weekend := 0,
       weekday_average := none, hour_average := none },
     { t := 1, y := 1, lags := [some 0], hour := 1, weekday := 0, is_weekend := 0,
       weekday_average := none, hour_average := none },
     { t := 2, y := 2, lags := [some 1], hour := 2, weekday := 0, is_weekend := 0,
       weekday_average := none, hour_average := none },
     { t := 3, y := 3, lags := [some 2], hour := 3, weekday := 0, is_weekend := 0,
       weekday_average := none, hour_average := none },
     { t := 4, y := 4, lags := [some 3], hour := 4, weekday := 0, is_weekend := 0,
       weekday_average := none, hour_average := none },
     { t := 5, y := 5, lags := [some 4], hour := 5, weekday := 0, is_weekend := 0,
       weekday_average := none, hour_average := none },
     { t := 6, y := 6, lags := [some 5], hour := 6, weekday := 0, is_weekend := 0,
       weekday_average := none, hour_average := none },
     { t := 7, y := 7, lags := [some 6], hour := 7, weekday := 0, is_weekend := 0,
       weekday_average := none, hour_average := none },
     { t := 8, y := 8, lags := [some 7], hour := 8, weekday := 0, is_weekend := 0,
       weekday_average := none, hour_average := none }] := by
  simp [baseFrame, rowAt, s9, pyRange, shiftAt, yAt, tAt, List.range_succ,
    hourOf_small, weekdayOf_small]

theorem s9_ti : encTestIndex s9 1 2 (1/2) = 4 := by
  rw [encTestIndex, s9_base]
  norm_num [lagComplete, pyInt]

theorem s9_enc : encFrame s9 1 2 (1/2) =
    [{ t := 0, y := 0, lags := [none], hour := 0, weekday := 0, is_weekend := 0,
       weekday_average := some (some (3/2)), hour_average := some (some 0) },
     { t := 1, y := 1, lags := [some 0], hour := 1, weekday := 0, is_weekend := 0,
       weekday_average := some (some (3/2)), hour_average := some (some 1) },
     { t := 2, y := 2, lags := [some 1], hour := 2, weekday := 0, is_weekend := 0,
       weekday_average := some (some (3/2)), hour_average := some (some 2) },
     { t := 3, y := 3, lags := [some 2], hour := 3, weekday := 0, is_weekend := 0,
       weekday_average := some (some (3/2)), hour_average := some (some 3) },
     { t := 4, y := 4, lags := [some 3], hour := 4, weekday := 0, is_weekend := 0,
       weekday_average := some (some (3/2)), hour_average := some none },
     { t := 5, y := 5, lags := [some 4], hour := 5, weekday := 0, is_weekend := 0,
       weekday_average := some (some (3/2)), hour_average := some none },
     { t := 6, y := 6, lags := [some 5], hour := 6, weekday := 0, is_weekend := 0,
       weekday_average := some (some (3/2)), hour_average := some none },
     { t := 7, y := 7, lags := [some 6], hour := 7, weekday := 0, is_weekend := 0,
       weekday_average := some (some (3/2)), hour_average := some none },
     { t := 8, y := 8, lags := [some 7], hour := 8, weekday := 0, is_weekend := 0,
       weekday_average := some (some (3/2)), hour_average := some none }] := by
  have h9 : s9.length = 9 := rfl
  rw [encFrame, h9]
  simp only [List.range_succ, List.range_zero, List.map_cons, List.map_nil, List.map_append,
    List.nil_append, List.cons_append, encRowAt]
  rw [s9_ti, s9_base]
  norm_num [code_mean, pyTake, rowAt, pyRange, shiftAt, yAt, tAt, s9,
    hourOf_small, weekdayOf_small, intToNat0, intToNat1, intToNat2, intToNat3, intToNat4,
    intToNat5, intToNat6, intToNat7, intToNat8, List.range_succ, List.range_zero]

theorem s9_out : prepareData s9 1 2 (1/2) true =
    ([{ t := 1, y := 1, lags := [some 0], hour := 1, weekday := 0, is_weekend := 0,
        weekday_average := some (some (3/2)), hour_average := some (some 1) }],
     [{ t := 2, y := 2, lags := [some 1], hour := 2, weekday := 0, is_weekend := 0,
        weekday_average := some (some (3/2)), hour_average := some (some 2) },
      { t := 3, y := 3, lags := [some 2], hour := 3, weekday := 0, is_weekend := 0,
        weekday_average := some (some (3/2)), hour_average := some (some 3) }],
     [1], [2, 3]) := by
  rw [prepareData, cleanedRows, fullFrame, if_pos rfl, s9_enc]
  norm_num [isComplete, lagComplete, optColComplete, timeseries_train_test_split,
    pyInt, pyTake, pyDrop, intToNat1]

theorem s9m_base : baseFrame s9m 1 2 =
    [{ t := 0, y := 0, lags := [none], hour := 0, weekday := 0, is_weekend := 0,
       weekday_average := none, hour_average := none },
     { t := 1, y := 1, lags := [some 0], hour := 1, weekday := 0, is_weekend := 0,
       weekday_average := none, hour_average := none },
     { t := 2, y := 2, lags := [some 1], hour := 2, weekday := 0, is_weekend := 0,
       weekday_average := none, hour_average := none },
     { t := 3, y := 100, lags := [some 2], hour := 3, weekday := 0, is_weekend := 0,
       weekday_average := none, hour_average := none },
     { t := 4, y := 4, lags := [some 100], hour := 4, weekday := 0, is_weekend := 0,
       weekday_average := none, hour_average := none },
     { t := 5, y := 5, lags := [some 4], hour := 5, weekday := 0, is_weekend := 0,
       weekday_average := none, hour_average := none },
     { t := 6, y := 6, lags := [some 5], hour := 6, weekday := 0, is_weekend := 0,
       weekday_average := none, hour_average := none },
     { t := 7, y := 7, lags := [some 6], hour := 7, weekday := 0, is_weekend := 0,
       weekday_average := none, hour_average := none },
     { t := 8, y := 8, lags := [some 7], hour := 8, weekday := 0, is_weekend := 0,
       weekday_average := none, hour_average := none }] := by
  simp [baseFrame, rowAt, s9m_eq, pyRange, shiftAt, yAt, tAt, List.range_succ,
    hourOf_small, weekdayOf_small]

theorem s9m_ti : encTestIndex s9m 1 2 (1/2) = 4 := by
  rw [encTestIndex, s9m_base]
  norm_num [lagComplete, pyInt]

theorem s9m_enc : encFrame s9m 1 2 (1/2) =
    [{ t := 0, y := 0, lags := [none], hour := 0, weekday := 0, is_weekend := 0,
       weekday_average := some (some (103/4)), hour_average := some (some 0) },
     { t := 1, y := 1, lags := [some 0], hour := 1, weekday := 0, is_weekend := 0,
       weekday_average := some (some (103/4)), hour_average := some (some 1) },
     { t := 2, y := 2, lags := [some 1], hour := 2, weekday := 0, is_weekend := 0,
       weekday_average := some (some (103/4)), hour_average := some (some 2) },
     { t := 3, y := 100, lags := [some 2], hour := 3, weekday := 0, is_weekend := 0,
       weekday_average := some (some (103/4)), hour_average := some (some 100) },
     { t := 4, y := 4, lags := [some 100], hour := 4, weekday := 0, is_weekend := 0,
       weekday_average := some (some (103/4)), hour_average := some none },
     { t := 5, y := 5, lags := [some 4], hour := 5, weekday := 0, is_weekend := 0,
       weekday_average := some (some (103/4)), hour_average := some none },
     { t := 6, y := 6, lags := [some 5], hour := 6, weekday := 0, is_weekend := 0,
       weekday_average := some (some (103/4)), hour_average := some none },
     { t := 7, y := 7, lags := [some 6], hour := 7, weekday := 0, is_weekend := 0,
       weekday_average := some (some (103/4)), hour_average := some none },
     { t := 8, y := 8, lags := [some 7], hour := 8, weekday := 0, is_weekend := 0,
       weekday_average := some (some (103/4)), hour_average := some none }] := by
  have h9 : s9m.length = 9 := rfl
  rw [encFrame, h9]
  simp only [List.range_succ, List.range_zero, List.map_cons, List.map_nil, List.map_append,
    List.nil_append, List.cons_append, encRowAt]
  rw [s9m_ti, s9m_base]
  norm_num [code_mean, pyTake, rowAt, pyRange, shiftAt, yAt, tAt, s9m_eq,
    hourOf_small, weekdayOf_small, intToNat0, intToNat1, intToNat2, intToNat3, intToNat4,
    intToNat5, intToNat6, intToNat7, intToNat8, List.range_succ, List.range_zero]

theorem s9m_out : prepareData s9m 1 2 (1/2) true =
    ([{ t := 1, y := 1, lags := [some 0], hour := 1, weekday := 0, is_weekend := 0,
        weekday_average := some (some (103/4)), hour_average := some (some 1) }],
     [{ t := 2, y := 2, lags := [some 1], hour := 2, weekday := 0, is_weekend := 0,
        weekday_average := some (some (103/4)), hour_average := some (some 2) },
      { t := 3, y := 100, lags := [some 2], hour := 3, weekday := 0, is_weekend := 0,
        weekday_average := some (some (103/4)), hour_average := some (some 100) }],
     [1], [2, 100]) := by
  rw [prepareData, cleanedRows, fullFrame, if_pos rfl, s9m_enc]
  norm_num [isComplete, lagComplete, optColComplete, timeseries_train_test_split,
    pyInt, pyTake, pyDrop, intToNat1]

/-- C1: the leakage-prevention property fails on the code.  `s9m` differs from
`s9` only in the target value at position 3, whose timestamp 3 lies in the
returned test partition of both runs (both test partitions hold exactly the
timestamps 2 and 3); yet the returned `hour_average` and `weekday_average`
columns change, because the encoding prefix `data[:test_index]` is sliced from
the full frame with a boundary that is not recomputed after the
unseen-group rows are dropped, so it overlaps the final test partition. -/
theorem C1_targetEncoding_leaks_test_rows :
    s9m = setY s9 3 100 ∧
    tAt s9 3 = 3 ∧
    (Xtest (prepareData s9 1 2 (1/2) true)).map FeatureRow.t = [2, 3] ∧
    (Xtest (prepareData s9m 1 2 (1/2) true)).map FeatureRow.t = [2, 3] ∧
    (Xtest (prepareData s9 1 2 (1/2) true)).map FeatureRow.hour_average ≠
      (Xtest (prepareData s9m 1 2 (1/2) true)).map FeatureRow.hour_average ∧
    (Xtest (prepareData s9 1 2 (1/2) true)).map FeatureRow.weekday_average ≠
      (Xtest (prepareData s9m 1 2 (1/2) true)).map FeatureRow.weekday_average := by
  refine ⟨rfl, rfl, ?_, ?_, ?_, ?_⟩
  · rw [s9_out]
    norm_num [Xtest]
  · rw [s9m_out]
    norm_num [Xtest]
  · rw [s9_out, s9m_out]
    norm_num [Xtest]
  · rw [s9_out, s9m_out]
    norm_num [Xtest]

/-- C2 counterexample: a lag-incomplete row contributes to the group means.
Row 0 of `s5` is lag-incomplete, and mutating only its target value (giving
`s5m`) changes the `weekday_average` attached to the returned rows, so the
means are not computed from lag-complete rows only. -/
theorem C2_counterexample :
    s5m = setY s5 0 10 ∧
    lagComplete (rowAt s5 1 2 0) = false ∧
    (Xtest (prepareData s5 1 2 (1/2) true)).map FeatureRow.weekday_average =
      [some (some (1/2))] ∧
    (Xtest (prepareData s5m 1 2 (1/2) true)).map FeatureRow.weekday_average =
      [some (some (11/2))] ∧
    (Xtest (prepareData s5 1 2 (1/2) true)).map FeatureRow.weekday_average ≠
      (Xtest (prepareData s5m 1 2 (1/2) true)).map FeatureRow.weekday_average := by
  refine ⟨rfl, ?_, ?_, ?_, ?_⟩
  · simp [rowAt, lagComplete, pyRange, shiftAt, s5, intToNat1, List.range_succ]
  · rw [Xtest, s5_out]
    norm_num
  · rw [Xtest, s5m_out]
    norm_num
  · rw [s5_out, s5m_out]
    norm_num [Xtest]

/-- Run with a degenerate lag window `[2, 2)`: every row is trivially
lag-complete and carries no lag column. -/
theorem s5_win_out : prepareData s5 2 2 (1/2) false =
    ([{ t := 0, y := 0, lags := [], hour := 0, weekday := 0, is_weekend := 0,
        weekday_average := none, hour_average := none },
      { t := 1, y := 1, lags := [], hour := 1, weekday := 0, is_weekend := 0,
        weekday_average := none, hour_average := none }],
     [{ t := 2, y := 2, lags := [], hour := 2, weekday := 0, is_weekend := 0,
        weekday_average := none, hour_average := none },
      { t := 3, y := 3, lags := [], hour := 3, weekday := 0, is_weekend := 0,
        weekday_average := none, hour_average := none },
      { t := 4, y := 4, lags := [], hour := 4, weekday := 0, is_weekend := 0,
        weekday_average := none, hour_average := none }],
     [0, 1], [2, 3, 4]) := by
  have hbase : baseFrame s5 2 2 =
      [{ t := 0, y := 0, lags := [], hour := 0, weekday := 0, is_weekend := 0,
         weekday_average := none, hour_average := none },
       { t := 1, y := 1, lags := [], hour := 1, weekday := 0, is_weekend := 0,
         weekday_average := none, hour_average := none },
       { t := 2, y := 2, lags := [], hour := 2, weekday := 0, is_weekend := 0,
         weekday_average := none, hour_average := none },
       { t := 3, y := 3, lags := [], hour := 3, weekday := 0, is_weekend := 0,
         weekday_average := none, hour_average := none },
       { t := 4, y := 4, lags := [], hour := 4, weekday := 0, is_weekend := 0,
         weekday_average := none, hour_average := none }] := by
    simp [baseFrame, rowAt, s5, pyRange, shiftAt, yAt, tAt, List.range_succ,
      hourOf_small, weekdayOf_small]
  rw [prepareData, cleanedRows, fullFrame, if_neg (by simp), hbase]
  norm_num [isComplete, lagComplete, optColComplete, timeseries_train_test_split,
    pyInt, pyTake, pyDrop, intToNat2]

/-- C3 counterexample: with `lag_end = lag_start = 2` (an invalid window by
the spec) `build` does not fail: it returns a dataset with populated train
and test partitions. -/
theorem C3_counterexample :
    prepareDataE s5 2 2 (1/2) false = Except.ok (prepareData s5 2 2 (1/2) false) ∧
    prepareDataE s5 2 2 (1/2) false ≠ Except.error BuildError.InvalidWindow ∧
    (Xtrain (prepareData s5 2 2 (1/2) false)).length = 2 ∧
    (Xtest (prepareData s5 2 2 (1/2) false)).length = 3 := by
  refine ⟨rfl, by simp [prepareDataE], ?_, ?_⟩
  · rw [s5_win_out]
    rfl
  · rw [s5_win_out]
    rfl

/-- C3 amended: `build` performs no lag-window validation and never fails;
with `lag_end ≤ lag_start` it succeeds and every returned row carries no lag
feature at all. -/
theorem C3_no_window_validation (s : Series) (ls le : ℤ) (ts : ℚ) (enc : Bool)
    (h : le ≤ ls) :
    prepareDataE s ls le ts enc = Except.ok (prepareData s ls le ts enc) ∧
    ∀ r ∈ Xtrain (prepareData s ls le ts enc) ++ Xtest (prepareData s ls le ts enc),
      r.lags = [] := by
  refine ⟨rfl, ?_⟩
  intro r hr
  have hcl : r ∈ cleanedRows s ls le ts enc := by
    rcases List.mem_append.1 hr with hr | hr
    · exact mem_pyTake hr
    · exact mem_pyDrop hr
  have hff : r ∈ fullFrame s ls le ts enc := (List.filter_sublist _).mem hcl
  have hlags : ∀ i : ℕ, (rowAt s ls le i).lags = [] := by
    intro i
    rw [rowAt]
    simp [pyRange_of_le h]
  cases enc with
  | false =>
      rw [fullFrame, if_neg (by simp), baseFrame] at hff
      rcases List.mem_map.1 hff with ⟨i, _, rfl⟩
      exact hlags i
  | true =>
      rw [fullFrame, if_pos rfl, encFrame] at hff
      rcases List.mem_map.1 hff with ⟨i, _, rfl⟩
      exact hlags i

/-- C3 witness: the amended statement at the degenerate window `[2, 2)`. -/
theorem C3_no_window_validation_witness :
    (2 : ℤ) ≤ 2 ∧
    (prepareDataE s5 2 2 (1/2) false = Except.ok (prepareData s5 2 2 (1/2) false) ∧
      ∀ r ∈ Xtrain (prepareData s5 2 2 (1/2) false) ++ Xtest (prepareData s5 2 2 (1/2) false),
        r.lags = []) :=
  ⟨le_refl 2, C3_no_window_validation s5 2 2 (1/2) false (le_refl 2)⟩

/-- Run with `test_size = 1`, outside the open interval (0,1): no failure,
the whole cleaned frame lands in the test partition. -/
theorem s5_ts1_out : prepareData s5 1 2 1 false =
    ([],
     [{ t := 1, y := 1, lags := [some 0], hour := 1, weekday := 0, is_weekend := 0,
        weekday_average := none, hour_average := none },
      { t := 2, y := 2, lags := [some 1], hour := 2, weekday := 0, is_weekend := 0,
        weekday_average := none, hour_average := none },
      { t := 3, y := 3, lags := [some 2], hour := 3, weekday := 0, is_weekend := 0,
        weekday_average := none, hour_average := none },
      { t := 4, y := 4, lags := [some 3], hour := 4, weekday := 0, is_weekend := 0,
        weekday_average := none, hour_average := none }],
     [], [1, 2, 3, 4]) := by
  rw [prepareData, cleanedRows, fullFrame, if_neg (by simp), s5_base]
  norm_num [isComplete, lagComplete, optColComplete, timeseries_train_test_split,
    pyInt, pyTake, pyDrop, intToNat0]

/-- C4 counterexample: with `test_fraction = 1`, outside (0,1), `build` does
not fail with `InvalidFraction`: it returns a dataset (with an empty train
prefix and all four cleaned rows as the test suffix). -/
theorem C4_counterexample :
    prepareDataE s5 1 2 1 false = Except.ok (prepareData s5 1 2 1 false) ∧
    prepareDataE s5 1 2 1 false ≠ Except.error BuildError.InvalidFraction ∧
    Xtrain (prepareData s5 1 2 1 false) = [] ∧
    (Xtest (prepareData s5 1 2 1 false)).length = 4 := by
  refine ⟨rfl, by simp [prepareDataE], ?_, ?_⟩
  · rw [s5_ts1_out]
    rfl
  · rw [s5_ts1_out]
    rfl

/-- C4 amended: `build` performs no fraction validation and never fails;
at the boundary values the split degenerates instead: `test_fraction = 0`
yields an empty test partition and `test_fraction = 1` an empty train
partition. -/
theorem C4_no_fraction_validation (s : Series) (ls le : ℤ) (enc : Bool) (ts : ℚ)
    (h : ts = 0 ∨ ts = 1) :
    prepareDataE s ls le ts enc = Except.ok (prepareData s ls le ts enc) ∧
    (ts = 0 → Xtest (prepareData s ls le ts enc) = []) ∧
    (ts = 1 → Xtrain (prepareData s ls le ts enc) = []) := by
  refine ⟨rfl, ?_, ?_⟩
  · intro h0
    rw [Xtest, prepareData, timeseries_train_test_split]
    have : pyInt (((cleanedRows s ls le ts enc).length : ℚ) * (1 - ts)) =
        ((cleanedRows s ls le ts enc).length : ℤ) := by
      rw [h0, show (1 : ℚ) - 0 = 1 by norm_num, mul_one,
        pyInt_of_nonneg (by positivity)]
      exact_mod_cast Int.floor_natCast _
    rw [this, pyDrop_of_nonneg _ (by positivity)]
    simp
  · intro h1
    rw [Xtrain, prepareData, timeseries_train_test_split]
    have : pyInt (((cleanedRows s ls le ts enc).length : ℚ) * (1 - ts)) = 0 := by
      rw [h1]
      norm_num [pyInt]
    rw [this, pyTake_of_nonneg _ (le_refl 0)]
    simp [intToNat0]

/-- C4 witness: the amended statement at `test_fraction = 1`. -/
theorem C4_no_fraction_validation_witness :
    ((1 : ℚ) = 0 ∨ (1 : ℚ) = 1) ∧
    (prepareDataE s5 1 2 1 false = Except.ok (prepareData s5 1 2 1 false) ∧
      ((1 : ℚ) = 0 → Xtest (prepareData s5 1 2 1 false) = []) ∧
      ((1 : ℚ) = 1 → Xtrain (prepareData s5 1 2 1 false) = [])) :=
  ⟨Or.inr rfl, C4_no_fraction_validation s5 1 2 false 1 (Or.inr rfl)⟩

/-- C9: the routine is a pure function of its inputs.  A call leaves the
caller's series exactly as it was (the source operates on a copy), and the
tuple a call returns is exactly `prepareData` of the inputs, so two calls on
equal inputs return equal outputs. -/
theorem C9_pure_function (s : Series) (ls le : ℤ) (ts : ℚ) (enc : Bool) :
    (prepareDataCall s ls le ts enc).1 = s ∧
    (prepareDataCall s ls le ts enc).2 = prepareData s ls le ts enc := by
  constructor
  · rfl
  · rw [prepareDataCall]
    simp

/-- C10: for a non-empty series and a window at least as long as the series,
`moving_average` clamps the tail slice to the whole series and returns the
mean of all observations — no window size is out of bounds. -/
theorem C10_moving_average_clamps (s : List ℚ) (n : ℤ) (hne : s ≠ [])
    (hn : (s.length : ℤ) ≤ n) :
    moving_average s n = s.sum / (s.length : ℚ) := by
  have hlen : 0 < s.length := List.length_pos.2 hne
  have h1 : 1 ≤ n := le_trans (by exact_mod_cast hlen) hn
  have hslice : sliceLast s n = s := by
    rw [sliceLast, if_pos h1]
    have : s.length - n.toNat = 0 := by omega
    rw [this, List.drop_zero]
  rw [moving_average, hslice]

/-- C6: on a chronologically sorted series and a fraction in (0,1), the final
partition is by position at `floor(len(final_rows) * (1 - test_fraction))`,
computed over the cleaned rows that survive the drop: train prefix and test
suffix reassemble exactly the cleaned rows, their lengths are the boundary and
its complement, and every test-row timestamp strictly exceeds every train-row
timestamp. -/
theorem C6_final_split_partition (s : Series) (ls le : ℤ) (ts : ℚ) (enc : Bool)
    (hs : List.Pairwise (fun a b : ℤ × ℚ => a.1 < b.1) s)
    (h0 : 0 < ts) (h1 : ts < 1) :
    Xtrain (prepareData s ls le ts enc) ++ Xtest (prepareData s ls le ts enc) =
      cleanedRows s ls le ts enc ∧
    (Xtrain (prepareData s ls le ts enc)).length =
      (pyInt (((cleanedRows s ls le ts enc).length : ℚ) * (1 - ts))).toNat ∧
    (Xtest (prepareData s ls le ts enc)).length =
      (cleanedRows s ls le ts enc).length -
        (pyInt (((cleanedRows s ls le ts enc).length : ℚ) * (1 - ts))).toNat ∧
    ∀ r ∈ Xtrain (prepareData s ls le ts enc), ∀ q ∈ Xtest (prepareData s ls le ts enc),
      r.t < q.t := by
  have hti0 : 0 ≤ pyInt (((cleanedRows s ls le ts enc).length : ℚ) * (1 - ts)) :=
    split_index_nonneg _ (le_of_lt h1)
  have htiC : (pyInt (((cleanedRows s ls le ts enc).length : ℚ) * (1 - ts))).toNat ≤
      (cleanedRows s ls le ts enc).length :=
    split_index_le _ (le_of_lt h0) (le_of_lt h1)
  have hXtr : Xtrain (prepareData s ls le ts enc) =
      (cleanedRows s ls le ts enc).take
        (pyInt (((cleanedRows s ls le ts enc).length : ℚ) * (1 - ts))).toNat := by
    rw [Xtrain, prepareData, timeseries_train_test_split]
    exact pyTake_of_nonneg _ hti0
  have hXte : Xtest (prepareData s ls le ts enc) =
      (cleanedRows s ls le ts enc).drop
        (pyInt (((cleanedRows s ls le ts enc).length : ℚ) * (1 - ts))).toNat := by
    rw [Xtest, prepareData, timeseries_train_test_split]
    exact pyDrop_of_nonneg _ hti0
  have hpair : List.Pairwise (fun a b : FeatureRow => a.t < b.t)
      (cleanedRows s ls le ts enc) := by
    have hsub : ((cleanedRows s ls le ts enc).map FeatureRow.t).Sublist
        ((fullFrame s ls le ts enc).map FeatureRow.t) :=
      (List.filter_sublist _).map FeatureRow.t
    have hpw : ((fullFrame s ls le ts enc).map FeatureRow.t).Pairwise (· < ·) := by
      rw [fullFrame_map_t]
      exact (List.pairwise_map).2 hs
    exact (List.pairwise_map).1 (hpw.sublist hsub)
  refine ⟨?_, ?_, ?_, ?_⟩
  · rw [hXtr, hXte, List.take_append_drop]
  · rw [hXtr, List.length_take]
    omega
  · rw [hXte, List.length_drop]
  · intro r hr q hq
    rw [hXtr] at hr
    rw [hXte] at hq
    have := List.pairwise_append.1 (by
      rw [List.take_append_drop
        ((pyInt (((cleanedRows s ls le ts enc).length : ℚ) * (1 - ts))).toNat)
        (cleanedRows s ls le ts enc)]
      exact hpair)
    exact this.2.2 r hr q hq

/-- C6 witness: the partition statement on the sorted five-point series with
`test_fraction = 1/2`. -/
theorem C6_final_split_partition_witness :
    (List.Pairwise (fun a b : ℤ × ℚ => a.1 < b.1) s5 ∧ (0 : ℚ) < 1/2 ∧ (1 : ℚ)/2 < 1) ∧
    (Xtrain (prepareData s5 1 2 (1/2) false) ++ Xtest (prepareData s5 1 2 (1/2) false) =
        cleanedRows s5 1 2 (1/2) false ∧
      (Xtrain (prepareData s5 1 2 (1/2) false)).length =
        (pyInt (((cleanedRows s5 1 2 (1/2) false).length : ℚ) * (1 - 1/2))).toNat ∧
      (Xtest (prepareData s5 1 2 (1/2) false)).length =
        (cleanedRows s5 1 2 (1/2) false).length -
          (pyInt (((cleanedRows s5 1 2 (1/2) false).length : ℚ) * (1 - 1/2))).toNat ∧
      ∀ r ∈ Xtrain (prepareData s5 1 2 (1/2) false),
        ∀ q ∈ Xtest (prepareData s5 1 2 (1/2) false), r.t < q.t) :=
  ⟨⟨by decide, by norm_num, by norm_num⟩,
    C6_final_split_partition s5 1 2 (1/2) false (by decide) (by norm_num) (by norm_num)⟩

/-- Every row of the returned partitions is a cleaned row. -/
theorem mem_output_mem_cleaned {s : Series} {ls le : ℤ} {ts : ℚ} {enc : Bool}
    {r : FeatureRow}
    (hr : r ∈ Xtrain (prepareData s ls le ts enc) ++ Xtest (prepareData s ls le ts enc)) :
    r ∈ cleanedRows s ls le ts enc := by
  rcases List.mem_append.1 hr with hr | hr
  · exact mem_pyTake hr
  · exact mem_pyDrop hr

theorem encRowAt_lags (s : Series) (ls le : ℤ) (ts : ℚ) (i : ℕ) :
    (encRowAt s ls le ts i).lags = (pyRange ls le).map (shiftAt s i) := rfl

/-- Every frame row is the row built at some in-range position: its timestamp
and its lag columns are those of that position. -/
theorem mem_fullFrame_form {s : Series} {ls le : ℤ} {ts : ℚ} {enc : Bool} {r : FeatureRow}
    (hff : r ∈ fullFrame s ls le ts enc) :
    ∃ i, i < s.length ∧ r.t = tAt s i ∧ r.lags = (pyRange ls le).map (shiftAt s i) := by
  cases enc with
  | false =>
      rw [fullFrame, if_neg (by simp), baseFrame] at hff
      rcases List.mem_map.1 hff with ⟨i, hi, rfl⟩
      exact ⟨i, List.mem_range.1 hi, rfl, rfl⟩
  | true =>
      rw [fullFrame, if_pos rfl, encFrame] at hff
      rcases List.mem_map.1 hff with ⟨i, hi, rfl⟩
      exact ⟨i, List.mem_range.1 hi, rfl, rfl⟩

/-- On a series with consecutive unit-step timestamps starting at `t0`, the
timestamp-keyed lookup finds exactly the value stored at the offset. -/
theorem seriesLookup_consecutive (s : Series) (t0 : ℤ)
    (hcons : ∀ i, i < s.length → tAt s i = t0 + i) {m : ℕ} (hm : m < s.length) :
    seriesLookup s (t0 + m) = some (yAt s m) := by
  induction s generalizing t0 m with
  | nil => simp at hm
  | cons e tl ih =>
      have he : e.1 = t0 := by
        have := hcons 0 (by simp)
        simpa [tAt] using this
      cases m with
      | zero =>
          rw [seriesLookup, List.find?_cons_of_pos _ (by simp [he])]
          rfl
      | succ m =>
          have hne : ¬(e.1 = t0 + (m + 1 : ℕ)) := by
            rw [he]
            push_cast
            omega
          rw [seriesLookup, List.find?_cons_of_neg _ (by simpa using hne)]
          have hcons2 : ∀ i, i < tl.length → tAt tl i = (t0 + 1) + i := by
            intro i hi
            have := hcons (i + 1) (by simp; omega)
            rw [show tAt (e :: tl) (i + 1) = tAt tl i from rfl] at this
            rw [this]
            push_cast
            ring
          have hm2 : m < tl.length := by
            simp at hm
            omega
          have := ih (t0 + 1) hcons2 hm2
          rw [seriesLookup] at this
          rw [show t0 + ((m : ℕ) + 1 : ℕ) = (t0 + 1) + (m : ℕ) by push_cast; ring]
          rw [this]
          rfl

/-- A three-point series with a gap: timestamps 0, 1, 3. -/
def g3 : Series := [(0, 10), (1, 20), (3, 30)]

theorem g3_out : prepareData g3 1 2 (1/2) false =
    ([{ t := 1, y := 20, lags := [some 10], hour := 1, weekday := 0, is_weekend := 0,
        weekday_average := none, hour_average := none }],
     [{ t := 3, y := 30, lags := [some 20], hour := 3, weekday := 0, is_weekend := 0,
        weekday_average := none, hour_average := none }],
     [20], [30]) := by
  have hbase : baseFrame g3 1 2 =
      [{ t := 0, y := 10, lags := [none], hour := 0, weekday := 0, is_weekend := 0,
         weekday_average := none, hour_average := none },
       { t := 1, y := 20, lags := [some 10], hour := 1, weekday := 0, is_weekend := 0,
         weekday_average := none, hour_average := none },
       { t := 3, y := 30, lags := [some 20], hour := 3, weekday := 0, is_weekend := 0,
         weekday_average := none, hour_average := none }] := by
    simp [baseFrame, rowAt, g3, pyRange, shiftAt, yAt, tAt, List.range_succ,
      hourOf_small, weekdayOf_small]
  rw [prepareData, cleanedRows, fullFrame, if_neg (by simp), hbase]
  norm_num [isComplete, lagComplete, optColComplete, timeseries_train_test_split,
    pyInt, pyTake, pyDrop, intToNat1]

/-- C7 counterexample: on a series with a gap in its timestamps the lag
feature is positional, not time-keyed.  The returned test row of `g3` sits at
time 3 with lag-1 feature 20, but the raw series holds no value at time 2, so
the round-trip property fails on this dataset. -/
theorem C7_counterexample :
    (Xtest (prepareData g3 1 2 (1/2) false)).map FeatureRow.t = [3] ∧
    (Xtest (prepareData g3 1 2 (1/2) false)).map FeatureRow.lags = [[some 20]] ∧
    seriesLookup g3 (3 - 1) = none ∧
    ¬(∀ r ∈ Xtrain (prepareData g3 1 2 (1/2) false) ++ Xtest (prepareData g3 1 2 (1/2) false),
        ∀ p ∈ r.lags.enum, p.2 = seriesLookup g3 (r.t - (1 + (p.1 : ℤ)))) := by
  refine ⟨?_, ?_, ?_, ?_⟩
  · rw [g3_out]
    rfl
  · rw [g3_out]
    rfl
  · rfl
  · intro h
    have hm : (FeatureRow.mk 3 30 [some 20] 3 0 0 none none) ∈
          Xtrain (prepareData g3 1 2 (1/2) false) ++ Xtest (prepareData g3 1 2 (1/2) false) := by
      rw [g3_out]
      simp [Xtrain, Xtest]
    have := h _ hm (0, some 20) (by simp)
    simp only [show ((3 : ℤ) - (1 + ((0 : ℕ) : ℤ))) = 2 by norm_num] at this
    rw [show seriesLookup g3 2 = none from rfl] at this
    exact Option.noConfusion this

/-- C7 amended: the lag feature is positional — it equals the series value
the corresponding number of positions earlier.  Consequently, whenever the
series timestamps are consecutive (each equal to `t0` plus the position), the
lag-`k` column of every returned row at time `t` equals the raw series value
at time `t - k`, recovering the claim for gap-free series. -/
theorem C7_lag_positional (s : Series) (ls le : ℤ) (ts : ℚ) (enc : Bool) (t0 : ℤ)
    (hcons : ∀ i, i < s.length → tAt s i = t0 + i) :
    ∀ r ∈ Xtrain (prepareData s ls le ts enc) ++ Xtest (prepareData s ls le ts enc),
      ∀ p ∈ r.lags.enum, p.2 = seriesLookup s (r.t - (ls + (p.1 : ℤ))) := by
  intro r hr p hp
  have hcl : r ∈ cleanedRows s ls le ts enc := mem_output_mem_cleaned hr
  have hic : isComplete r = true := (List.mem_filter.1 (by rwa [cleanedRows] at hcl)).2
  have hff : r ∈ fullFrame s ls le ts enc := (List.filter_sublist _).mem
    (by rwa [cleanedRows] at hcl)
  rcases mem_fullFrame_form hff with ⟨i, hiN, hrt, hrl⟩
  have hg : r.lags.get? p.1 = some p.2 := List.mem_enum_iff_get?.1 hp
  have hsome : p.2.isSome := by
    have hlc : lagComplete r = true := by
      rw [isComplete, Bool.and_eq_true, Bool.and_eq_true] at hic
      exact hic.1.1
    rw [lagComplete, List.all_eq_true] at hlc
    exact hlc p.2 (List.get?_mem hg)
  rw [hrl] at hg
  rw [List.get?_map] at hg
  rcases Option.map_eq_some'.1 hg with ⟨k, hk, hshift⟩
  have hkval : k = ls + (p.1 : ℤ) := by
    have hplt : p.1 < (le - ls).toNat := by
      rcases List.get?_eq_some.1 hk with ⟨hlt, _⟩
      rwa [pyRange, List.length_map, List.length_range] at hlt
    rw [pyRange, List.get?_map, List.get?_range hplt] at hk
    simp only [Option.map_some', Option.some.injEq] at hk
    omega
  rw [shiftAt] at hshift
  by_cases hcond : 0 ≤ (i : ℤ) - k ∧ (i : ℤ) - k < (s.length : ℤ)
  · rw [if_pos hcond] at hshift
    set m : ℕ := ((i : ℤ) - k).toNat with hm
    have hmN : m < s.length := by omega
    have hrtk : r.t - (ls + (p.1 : ℤ)) = t0 + m := by
      rw [hrt, hcons i hiN, ← hkval]
      omega
    rw [hrtk, seriesLookup_consecutive s t0 hcons hmN, ← hshift]
  · rw [if_neg hcond] at hshift
    rw [← hshift] at hsome
    exact absurd hsome (by simp)

/-- C7 witness: the amended statement on the gap-free five-point series. -/
theorem C7_lag_positional_witness :
    (∀ i, i < s5.length → tAt s5 i = 0 + i) ∧
    (∀ r ∈ Xtrain (prepareData s5 1 2 (1/2) false) ++ Xtest (prepareData s5 1 2 (1/2) false),
      ∀ p ∈ r.lags.enum, p.2 = seriesLookup s5 (r.t - (1 + (p.1 : ℤ)))) :=
  ⟨by decide, C7_lag_positional s5 1 2 (1/2) false 0 (by decide)⟩

/-- C8: with target encoding on, a row whose weekday (or hour) group has no
representative in the encoding prefix never raises: the dictionary lookup
degrades to the undefined-value marker on that encoded column, and the final
undefined-value drop then removes the row from the train and the test
partition alike. -/
theorem C8_unseen_group_dropped (s : Series) (ls le : ℤ) (ts : ℚ) (i : ℕ)
    (hs : List.Pairwise (fun a b : ℤ × ℚ => a.1 < b.1) s)
    (hi : i < s.length)
    (hu : (∀ q ∈ pyTake (baseFrame s ls le) (encTestIndex s ls le ts),
             q.weekday ≠ weekdayOf (tAt s i)) ∨
          (∀ q ∈ pyTake (baseFrame s ls le) (encTestIndex s ls le ts),
             q.hour ≠ hourOf (tAt s i))) :
    ((encRowAt s ls le ts i).weekday_average = some none ∨
      (encRowAt s ls le ts i).hour_average = some none) ∧
    (∀ e ∈ Xtrain (prepareData s ls le ts true), e.t ≠ tAt s i) ∧
    (∀ e ∈ Xtest (prepareData s ls le ts true), e.t ≠ tAt s i) := by
  have hmark : (encRowAt s ls le ts i).weekday_average = some none ∨
      (encRowAt s ls le ts i).hour_average = some none := by
    rcases hu with hu | hu
    · left
      show some (code_mean _ FeatureRow.weekday _) = some none
      have hnil : (pyTake (baseFrame s ls le) (encTestIndex s ls le ts)).filter
          (fun q => decide (q.weekday = (rowAt s ls le i).weekday)) = [] :=
        List.filter_eq_nil_iff.2 (fun q hq => by simpa [rowAt] using hu q hq)
      rw [code_mean]
      simp [hnil]
    · right
      show some (code_mean _ FeatureRow.hour _) = some none
      have hnil : (pyTake (baseFrame s ls le) (encTestIndex s ls le ts)).filter
          (fun q => decide (q.hour = (rowAt s ls le i).hour)) = [] :=
        List.filter_eq_nil_iff.2 (fun q hq => by simpa [rowAt] using hu q hq)
      rw [code_mean]
      simp [hnil]
  have hfalse : isComplete (encRowAt s ls le ts i) = false := by
    rcases hmark with hm | hm
    · rw [isComplete, hm]
      simp [optColComplete]
    · rw [isComplete, hm]
      simp [optColComplete]
  have hdrop : ∀ e ∈ cleanedRows s ls le ts true, e.t ≠ tAt s i := by
    intro e he het
    obtain ⟨hff, hcomp⟩ := List.mem_filter.1 (by rwa [cleanedRows] at he)
    rw [fullFrame, if_pos rfl, encFrame] at hff
    rcases List.mem_map.1 hff with ⟨j, hj, rfl⟩
    have hjN : j < s.length := List.mem_range.1 hj
    have hjt : tAt s j = tAt s i := by
      rw [← encRowAt_t s ls le ts j, het]
    have hji : j = i := tAt_inj hs hjN hi hjt
    subst hji
    rw [hfalse] at hcomp
    exact Bool.false_ne_true hcomp
  refine ⟨hmark, ?_, ?_⟩
  · intro e he
    exact hdrop e (mem_output_mem_cleaned (List.mem_append_left _ he))
  · intro e he
    exact hdrop e (mem_output_mem_cleaned (List.mem_append_right _ he))

/-- C8 witness: position 3 of the five-point series has hour 3, unseen in the
two-row encoding prefix, so its row is dropped from both partitions. -/
theorem C8_unseen_group_dropped_witness :
    (List.Pairwise (fun a b : ℤ × ℚ => a.1 < b.1) s5 ∧ 3 < s5.length ∧
      (∀ q ∈ pyTake (baseFrame s5 1 2) (encTestIndex s5 1 2 (1/2)),
        q.hour ≠ hourOf (tAt s5 3))) ∧
    (((encRowAt s5 1 2 (1/2) 3).weekday_average = some none ∨
        (encRowAt s5 1 2 (1/2) 3).hour_average = some none) ∧
      (∀ e ∈ Xtrain (prepareData s5 1 2 (1/2) true), e.t ≠ tAt s5 3) ∧
      (∀ e ∈ Xtest (prepareData s5 1 2 (1/2) true), e.t ≠ tAt s5 3)) :=
  ⟨⟨by decide, by decide, by
      rw [s5_ti, s5_base]
      decide⟩,
    C8_unseen_group_dropped s5 1 2 (1/2) 3 (by decide) (by decide)
      (Or.inr (by
        rw [s5_ti, s5_base]
        decide))⟩

/-- The end-to-end example series: 100 hourly points with `v[i] = i`. -/
def s100 : Series := (List.range 100).map (fun i : ℕ => ((i : ℤ), (i : ℚ)))

theorem tAt_mk (f : ℕ → ℤ) (g : ℕ → ℚ) {n i : ℕ} (h : i < n) :
    tAt ((List.range n).map (fun j : ℕ => (f j, g j))) i = f i := by
  rw [tAt, List.get?_map, List.get?_range h]
  rfl

theorem yAt_mk (f : ℕ → ℤ) (g : ℕ → ℚ) {n i : ℕ} (h : i < n) :
    yAt ((List.range n).map (fun j : ℕ => (f j, g j))) i = g i := by
  rw [yAt, List.get?_map, List.get?_range h]
  rfl

theorem s100_length : s100.length = 100 := by
  simp [s100]

theorem s100_complete (i : ℕ) (hi : i < 100) :
    isComplete (rowAt s100 1 3 i) = decide (2 ≤ i) := by
  have hpr : pyRange 1 3 = [1, 2] := rfl
  rw [rowAt]
  simp only [isComplete, lagComplete, optColComplete, hpr, List.map_cons, List.map_nil,
    List.all_cons, List.all_nil]
  rw [shiftAt, shiftAt, s100_length]
  by_cases h2 : 2 ≤ i
  · rw [if_pos (by constructor <;> (push_cast; omega)),
      if_pos (by constructor <;> (push_cast; omega))]
    simp [h2]
  · have hneg : ¬(0 ≤ (i : ℤ) - 2 ∧ (i : ℤ) - 2 < (100 : ℕ)) := by
      push_cast
      omega
    rw [if_neg hneg]
    simp [h2]

theorem s100_cleaned : cleanedRows s100 1 3 (1/5) false =
    ((List.range 100).filter (fun i => decide (2 ≤ i))).map (rowAt s100 1 3) := by
  rw [cleanedRows, fullFrame, if_neg (by simp), baseFrame, s100_length, List.filter_map]
  have hfc : (List.range 100).filter (isComplete ∘ rowAt s100 1 3) =
      (List.range 100).filter (fun i => decide (2 ≤ i)) :=
    List.filter_congr (fun i hi => by
      simpa using s100_complete i (List.mem_range.1 hi))
  rw [hfc]

theorem s100_cleaned_len : (cleanedRows s100 1 3 (1/5) false).length = 98 := by
  rw [s100_cleaned, List.length_map]
  decide

theorem s100_Xtrain : Xtrain (prepareData s100 1 3 (1/5) false) =
    (List.range' 2 78).map (rowAt s100 1 3) := by
  rw [Xtrain, prepareData, timeseries_train_test_split]
  show pyTake (cleanedRows s100 1 3 (1/5) false)
    (pyInt (((cleanedRows s100 1 3 (1/5) false).length : ℚ) * (1 - 1/5))) = _
  rw [s100_cleaned_len, show (((98 : ℕ) : ℚ)) = (98 : ℚ) from by norm_num,
    show pyInt ((98 : ℚ) * (1 - 1/5)) = 78 from by norm_num [pyInt],
    pyTake_of_nonneg _ (by norm_num), intToNat78, s100_cleaned, ← List.map_take]
  congr 1

theorem s100_Xtest : Xtest (prepareData s100 1 3 (1/5) false) =
    (List.range' 80 20).map (rowAt s100 1 3) := by
  rw [Xtest, prepareData, timeseries_train_test_split]
  show pyDrop (cleanedRows s100 1 3 (1/5) false)
    (pyInt (((cleanedRows s100 1 3 (1/5) false).length : ℚ) * (1 - 1/5))) = _
  rw [s100_cleaned_len, show (((98 : ℕ) : ℚ)) = (98 : ℚ) from by norm_num,
    show pyInt ((98 : ℚ) * (1 - 1/5)) = 78 from by norm_num [pyInt],
    pyDrop_of_nonneg _ (by norm_num), intToNat78, s100_cleaned, ← List.map_drop]
  congr 1

/-- C5: the end-to-end example.  For the 100-point hourly series with
`v[i] = i`, `lag_start = 1`, `lag_end = 3`, `test_fraction = 1/5` and no
target encoding, there are 98 lag-complete rows; the train partition holds
the 78 rows at timestamps 2..79 and the test partition the 20 rows at
timestamps 80..99; the first test row (timestamp 80) has lag-1 feature 79 and
lag-2 feature 78. -/
theorem C5_end_to_end_example :
    (cleanedRows s100 1 3 (1/5) false).length = 98 ∧
    (Xtrain (prepareData s100 1 3 (1/5) false)).length = 78 ∧
    (Xtest (prepareData s100 1 3 (1/5) false)).length = 20 ∧
    (Xtrain (prepareData s100 1 3 (1/5) false)).map FeatureRow.t =
      (List.range' 2 78).map (fun i : ℕ => (i : ℤ)) ∧
    (Xtest (prepareData s100 1 3 (1/5) false)).map FeatureRow.t =
      (List.range' 80 20).map (fun i : ℕ => (i : ℤ)) ∧
    (Xtest (prepareData s100 1 3 (1/5) false)).head?.map FeatureRow.lags =
      some [some 79, some 78] := by
  have hmem100 : ∀ {a n : ℕ}, a + n ≤ 100 → ∀ i ∈ List.range' a n, i < 100 := by
    intro a n han i hi
    have := List.mem_range'_1.1 hi
    omega
  refine ⟨s100_cleaned_len, ?_, ?_, ?_, ?_, ?_⟩
  · rw [s100_Xtrain, List.length_map, List.length_range']
  · rw [s100_Xtest, List.length_map, List.length_range']
  · rw [s100_Xtrain, List.map_map]
    apply List.map_congr_left
    intro i hi
    have hi100 : i < 100 := hmem100 (by norm_num) i hi
    show (rowAt s100 1 3 i).t = (i : ℤ)
    rw [rowAt_t, s100, tAt_mk _ _ hi100]
  · rw [s100_Xtest, List.map_map]
    apply List.map_congr_left
    intro i hi
    have hi100 : i < 100 := hmem100 (by norm_num) i hi
    show (rowAt s100 1 3 i).t = (i : ℤ)
    rw [rowAt_t, s100, tAt_mk _ _ hi100]
  · rw [s100_Xtest, show List.range' 80 20 = 80 :: List.range' 81 19 from rfl,
      List.map_cons, List.head?_cons, Option.map_some']
    have hlags : (rowAt s100 1 3 80).lags = [some 79, some 78] := by
      rw [rowAt]
      show (pyRange 1 3).map (shiftAt s100 80) = _
      rw [show pyRange 1 3 = [1, 2] from rfl, List.map_cons, List.map_cons, List.map_nil,
        shiftAt, shiftAt, s100_length]
      rw [if_pos (by constructor <;> norm_num), if_pos (by constructor <;> norm_num)]
      rw [show ((80 : ℕ) - (1 : ℤ)).toNat = 79 from rfl,
        show ((80 : ℕ) - (2 : ℤ)).toNat = 78 from rfl]
      rw [s100, yAt_mk _ _ (by norm_num), yAt_mk _ _ (by norm_num)]
      norm_num
    rw [hlags]

theorem rowAt_weekday (s : Series) (ls le : ℤ) (i : ℕ) :
    (rowAt s ls le i).weekday = weekdayOf (tAt s i) := rfl

theorem rowAt_hour (s : Series) (ls le : ℤ) (i : ℕ) :
    (rowAt s ls le i).hour = hourOf (tAt s i) := rfl

theorem rowAt_y (s : Series) (ls le : ℤ) (i : ℕ) : (rowAt s ls le i).y = yAt s i := rfl

theorem encRowAt_wavg (s : Series) (ls le : ℤ) (ts : ℚ) (i : ℕ) :
    (encRowAt s ls le ts i).weekday_average =
      some (code_mean (pyTake (baseFrame s ls le) (encTestIndex s ls le ts))
        FeatureRow.weekday (weekdayOf (tAt s i))) := rfl

theorem encRowAt_havg (s : Series) (ls le : ℤ) (ts : ℚ) (i : ℕ) :
    (encRowAt s ls le ts i).hour_average =
      some (code_mean (pyTake (baseFrame s ls le) (encTestIndex s ls le ts))
        FeatureRow.hour (hourOf (tAt s i))) := rfl

theorem lagComplete_encRowAt (s : Series) (ls le : ℤ) (ts : ℚ) (i : ℕ) :
    lagComplete (encRowAt s ls le ts i) = lagComplete (rowAt s ls le i) := rfl

/-- C2 amended: the encoding-step means are a function of the first
`floor(M * (1 - test_fraction))` rows of the full frame only (M = count of
lag-complete rows).  Mutating the target value at any full-frame position at
or after that boundary — in particular at every position the prefix does not
reach — leaves the timestamp, `weekday_average` and `hour_average` of every
returned row unchanged. -/
theorem C2_means_use_full_frame_prefix (s : Series) (ls le : ℤ) (ts : ℚ) (p : ℕ) (v : ℚ)
    (hts : ts ≤ 1) (hp : encTestIndex s ls le ts ≤ (p : ℤ)) :
    (Xtrain (prepareData (setY s p v) ls le ts true) ++
        Xtest (prepareData (setY s p v) ls le ts true)).map
      (fun r => (r.t, r.weekday_average, r.hour_average)) =
    (Xtrain (prepareData s ls le ts true) ++ Xtest (prepareData s ls le ts true)).map
      (fun r => (r.t, r.weekday_average, r.hour_average)) := by
  have hlen : (setY s p v).length = s.length := length_setY s p v
  have hshift : ∀ (i : ℕ) (k : ℤ),
      (shiftAt (setY s p v) i k).isSome = (shiftAt s i k).isSome := by
    intro i k
    rw [shiftAt, shiftAt, hlen]
    by_cases h : 0 ≤ (i : ℤ) - k ∧ (i : ℤ) - k < (s.length : ℤ)
    · rw [if_pos h, if_pos h]
      rfl
    · rw [if_neg h, if_neg h]
  have hlc : ∀ i : ℕ,
      lagComplete (rowAt (setY s p v) ls le i) = lagComplete (rowAt s ls le i) := by
    intro i
    show ((pyRange ls le).map (shiftAt (setY s p v) i)).all Option.isSome =
      ((pyRange ls le).map (shiftAt s i)).all Option.isSome
    rw [allMap, allMap]
    exact allCongr (fun k _ => by simp [Function.comp, hshift i k])
  have hM : ((baseFrame (setY s p v) ls le).filter lagComplete).length =
      ((baseFrame s ls le).filter lagComplete).length := by
    rw [baseFrame, baseFrame, hlen, List.filter_map, List.filter_map,
      List.length_map, List.length_map]
    exact congrArg List.length
      (List.filter_congr (fun i _ => by simp [Function.comp, hlc i]))
  have hti : encTestIndex (setY s p v) ls le ts = encTestIndex s ls le ts := by
    rw [encTestIndex, encTestIndex, hM]
  have hti0 : 0 ≤ encTestIndex s ls le ts := by
    rw [encTestIndex]
    exact split_index_nonneg _ hts
  have hn_le_p : (encTestIndex s ls le ts).toNat ≤ p := by omega
  have hpref : (pyTake (baseFrame (setY s p v) ls le)
        (encTestIndex (setY s p v) ls le ts)).map (fun r => (r.weekday, r.hour, r.y)) =
      (pyTake (baseFrame s ls le) (encTestIndex s ls le ts)).map
        (fun r => (r.weekday, r.hour, r.y)) := by
    rw [hti, pyTake_of_nonneg _ hti0, pyTake_of_nonneg _ hti0, baseFrame, baseFrame, hlen,
      ← List.map_take, ← List.map_take, List.take_range, List.map_map, List.map_map]
    apply List.map_congr_left
    intro i hi
    have hi_lt : i < (encTestIndex s ls le ts).toNat := by
      have := List.mem_range.1 hi
      omega
    have hne : i ≠ p := by omega
    show ((rowAt (setY s p v) ls le i).weekday, (rowAt (setY s p v) ls le i).hour,
        (rowAt (setY s p v) ls le i).y) =
      ((rowAt s ls le i).weekday, (rowAt s ls le i).hour, (rowAt s ls le i).y)
    rw [rowAt_weekday, rowAt_weekday, rowAt_hour, rowAt_hour, rowAt_y, rowAt_y,
      tAt_setY, yAt_setY_ne s p v hne]
  have hmeans := code_mean_congr_proj hpref
  have hrow : ∀ i : ℕ,
      ((encRowAt (setY s p v) ls le ts i).t,
        (encRowAt (setY s p v) ls le ts i).weekday_average,
        (encRowAt (setY s p v) ls le ts i).hour_average) =
      ((encRowAt s ls le ts i).t, (encRowAt s ls le ts i).weekday_average,
        (encRowAt s ls le ts i).hour_average) := by
    intro i
    rw [encRowAt_t, encRowAt_t, encRowAt_wavg, encRowAt_wavg, encRowAt_havg, encRowAt_havg,
      tAt_setY, hmeans.1, hmeans.2]
  have hcomp : ∀ i : ℕ,
      isComplete (encRowAt (setY s p v) ls le ts i) =
        isComplete (encRowAt s ls le ts i) := by
    intro i
    rw [isComplete, isComplete, lagComplete_encRowAt, lagComplete_encRowAt, hlc i,
      encRowAt_wavg, encRowAt_wavg, encRowAt_havg, encRowAt_havg, tAt_setY,
      hmeans.1, hmeans.2]
  have happ : ∀ s0 : Series,
      Xtrain (prepareData s0 ls le ts true) ++ Xtest (prepareData s0 ls le ts true) =
        cleanedRows s0 ls le ts true := by
    intro s0
    rw [Xtrain, Xtest, prepareData, timeseries_train_test_split]
    show pyTake (cleanedRows s0 ls le ts true)
        (pyInt (((cleanedRows s0 ls le ts true).length : ℚ) * (1 - ts))) ++
      pyDrop (cleanedRows s0 ls le ts true)
        (pyInt (((cleanedRows s0 ls le ts true).length : ℚ) * (1 - ts))) =
      cleanedRows s0 ls le ts true
    rw [pyTake_of_nonneg _ (split_index_nonneg _ hts),
      pyDrop_of_nonneg _ (split_index_nonneg _ hts), List.take_append_drop]
  have hclean : ∀ s0 : Series, cleanedRows s0 ls le ts true =
      ((List.range s0.length).filter (isComplete ∘ encRowAt s0 ls le ts)).map
        (encRowAt s0 ls le ts) := by
    intro s0
    rw [cleanedRows, fullFrame, if_pos rfl, encFrame, List.filter_map]
  rw [happ (setY s p v), happ s, hclean (setY s p v), hclean s, hlen,
    List.map_map, List.map_map]
  have hfc : (List.range s.length).filter (isComplete ∘ encRowAt (setY s p v) ls le ts) =
      (List.range s.length).filter (isComplete ∘ encRowAt s ls le ts) :=
    List.filter_congr (fun i _ => by simp [Function.comp, hcomp i])
  rw [hfc]
  apply List.map_congr_left
  intro i hi
  simpa [Function.comp] using hrow i

/-- C2 amended witness: mutating position 3 of the five-point series — at or
past the boundary 2 — leaves every returned encoded column unchanged. -/
theorem C2_means_use_full_frame_prefix_witness :
    ((1 : ℚ)/2 ≤ 1 ∧ encTestIndex s5 1 2 (1/2) ≤ (3 : ℤ)) ∧
    (Xtrain (prepareData (setY s5 3 99) 1 2 (1/2) true) ++
        Xtest (prepareData (setY s5 3 99) 1 2 (1/2) true)).map
      (fun r => (r.t, r.weekday_average, r.hour_average)) =
    (Xtrain (prepareData s5 1 2 (1/2) true) ++ Xtest (prepareData s5 1 2 (1/2) true)).map
      (fun r => (r.t, r.weekday_average, r.hour_average)) :=
  ⟨⟨by norm_num, by rw [s5_ti]; norm_num⟩,
    C2_means_use_full_frame_prefix s5 1 2 (1/2) 3 99 (by norm_num)
      (by rw [s5_ti]; norm_num)⟩

/-- C10 witness: a three-point series averaged with a window of five. -/
theorem C10_moving_average_clamps_witness :
    ([(3 : ℚ), 4, 8] ≠ [] ∧ (([(3 : ℚ), 4, 8].length : ℤ) ≤ 5)) ∧
    moving_average [(3 : ℚ), 4, 8] 5 = [(3 : ℚ), 4, 8].sum / (([(3 : ℚ), 4, 8].length : ℚ)) :=
  ⟨⟨by simp, by simp⟩,
    C10_moving_average_clamps [(3 : ℚ), 4, 8] 5 (by simp) (by simp)⟩

end TSF
